import Mathlib

/-!
# Live-position relay and trajectory renderer

A shallow embedding of `src/server.js` (the socket handlers around the `users`
registry and the `/api/geo-ip` endpoint with its cache) and of
`src/map-renderer.js` (the projection and the per-frame drawing pass), with the
properties proved about them.

Conventions of the embedding:
* A JavaScript number is a `JsNum`: a finite value (an exact rational, every
  double being one), negative zero, `NaN`, or one of the two infinities.
  `Math.abs`, `>` and `typeof` are exact on doubles, so the server handlers are
  modelled without rounding.
* The `users` and `geoCache` objects are modelled by their own properties, an
  association list in insertion order; connection ids are the identifiers the
  transport generates.
* `new Date().toISOString()` and `Date.now()` are inputs of the handlers.
* The renderer's arithmetic is over exact rationals.
-/

namespace TrackLive

/-! ## JavaScript values -/

/-- A JavaScript number. -/
inductive JsNum where
  | fin (q : ℚ)
  | negZero
  | nan
  | posInf
  | negInf
  deriving DecidableEq

namespace JsNum

/-- `Math.abs`. -/
def abs : JsNum → JsNum
  | fin q => fin |q|
  | negZero => fin 0
  | nan => nan
  | posInf => posInf
  | negInf => posInf

/-- The relational operator `a > b` on numbers: false as soon as one side is `NaN`. -/
def gt : JsNum → JsNum → Bool
  | nan, _ => false
  | _, nan => false
  | posInf, posInf => false
  | posInf, _ => true
  | _, posInf => false
  | negInf, _ => false
  | _, negInf => true
  | fin a, fin b => decide (a > b)
  | fin a, negZero => decide (a > 0)
  | negZero, fin b => decide (0 > b)
  | negZero, negZero => false

/-- A number that is neither `NaN` nor an infinity. -/
def isFinite : JsNum → Bool
  | fin _ => true
  | negZero => true
  | _ => false

/-- The real value of a finite number (`0` for the other three). -/
def toRat : JsNum → ℚ
  | fin q => q
  | _ => 0

end JsNum

/-- A JavaScript value as it reaches a handler: a primitive, or an object given by
its own properties. -/
inductive JsVal where
  | undefined
  | null
  | bool (b : Bool)
  | num (n : JsNum)
  | str (s : String)
  | obj (fields : List (String × JsVal))

namespace JsVal

/-- The `ToBoolean` conversion used by `!v`, `if (v)` and `a || b`. -/
def truthy : JsVal → Bool
  | undefined => false
  | null => false
  | bool b => b
  | num (JsNum.fin q) => decide (q ≠ 0)
  | num JsNum.negZero => false
  | num JsNum.nan => false
  | num _ => true
  | str s => decide (s ≠ "")
  | obj _ => true

/-- Own-property lookup in a property list. -/
def lookupField (k : String) : List (String × JsVal) → JsVal
  | [] => undefined
  | (k', v) :: rest => if k' = k then v else lookupField k rest

/-- Property read `v.k` for the keys the handlers read (`lat`, `lng`, `name`,
`status`, `lon`, `city`, `country`, `ip`): an object answers with its own property,
every primitive with `undefined`. The read is only made on values other than
`undefined` and `null`, on which JavaScript throws. -/
def get (v : JsVal) (k : String) : JsVal :=
  match v with
  | obj fields => lookupField k fields
  | _ => undefined

/-- The test `typeof v === 'number'`. -/
def isNumber : JsVal → Bool
  | num _ => true
  | _ => false

end JsVal

/-! ## The server: the `users` registry and its socket handlers -/

/-- The object stored under a connection id: the `Object.assign` of the object
holding `id` and `lastUpdate` with the one holding `lat`, `lng` and `name`. -/
structure Entity where
  id : String
  lastUpdate : String
  lat : JsNum
  lng : JsNum
  name : String
  deriving DecidableEq

/-- A plain object used as a dictionary: its own properties in insertion order. -/
abbrev Dict (α : Type) := List (String × α)

namespace Dict

variable {α : Type}

/-- The read `d[k]`. -/
def lookup (k : String) : Dict α → Option α
  | [] => none
  | (k', e) :: rest => if k' = k then some e else lookup k rest

/-- The assignment `d[k] = e`: an existing property keeps its place, a new one is
added at the end. -/
def set (k : String) (e : α) : Dict α → Dict α
  | [] => [(k, e)]
  | (k', e') :: rest => if k' = k then (k, e) :: rest else (k', e') :: set k e rest

/-- The statement `delete d[k]`. -/
def delete (k : String) : Dict α → Dict α
  | [] => []
  | (k', e') :: rest => if k' = k then delete k rest else (k', e') :: delete k rest

/-- The keys in the order `for (k in d)` visits them. -/
def keys (d : Dict α) : List String := d.map Prod.fst

end Dict

/-- The `users` object. -/
abbrev Registry := Dict Entity

/-- Whom an emitted message is addressed to: `io.emit` reaches every connected
socket, `socket.emit` the one socket. -/
inductive Target where
  | all
  | only (c : String)
  deriving DecidableEq

/-- One emitted message with the registry as serialised when it is sent. -/
structure Emit where
  target : Target
  event : String
  payload : Registry
  deriving DecidableEq

/-- The connections an emitted message reaches, given the connected sockets. -/
def Emit.recipients (m : Emit) (connected : List String) : List String :=
  match m.target with
  | Target.all => connected
  | Target.only c => connected.filter (fun d => d = c)

/-- The `io.on('connection')` callback body for socket `c`: `socket.emit('users', users)`. -/
def onConnection (users : Registry) (c : String) : Registry × List Emit :=
  (users, [⟨Target.only c, "users", users⟩])

/-- The `socket.on('user-location')` handler of socket `c`; `now` is
`new Date().toISOString()`. -/
def onUserLocation (users : Registry) (c : String) (payload : JsVal) (now : String) :
    Registry × List Emit :=
  if !payload.truthy || !(payload.get "lat").isNumber || !(payload.get "lng").isNumber then
    (users, [])
  else
    match payload.get "lat", payload.get "lng" with
    | JsVal.num lat, JsVal.num lng =>
      if (lat.abs.gt (JsNum.fin 90)) || (lng.abs.gt (JsNum.fin 180)) then (users, [])
      else
        let name := match payload.get "name" with
          | JsVal.str s => s
          | _ => "User"
        let users' := Dict.set c ⟨c, now, lat, lng, name⟩ users
        (users', [⟨Target.all, "users", users'⟩])
    | _, _ => (users, [])

/-- The `socket.on('track')` handler: it only logs. -/
def onTrack (users : Registry) (_c : String) (_id : JsVal) : Registry × List Emit :=
  (users, [])

/-- The `socket.on('disconnect')` handler of socket `c`. -/
def onDisconnect (users : Registry) (c : String) : Registry × List Emit :=
  match Dict.lookup c users with
  | some _ =>
    let users' := Dict.delete c users
    (users', [⟨Target.all, "users", users'⟩])
  | none => (users, [])

/-- The server's state: the connected sockets and the `users` registry. -/
structure ServerState where
  connected : List String
  users : Registry

/-- The state at start-up: nobody connected, `users` empty. -/
def ServerState.init : ServerState := ⟨[], []⟩

/-- The events the transport delivers. -/
inductive Event where
  | connect (c : String)
  | userLocation (c : String) (payload : JsVal) (now : String)
  | track (c : String) (id : JsVal)
  | disconnect (c : String)

/-- One event: the transport's bookkeeping of connected sockets around the handler.
An event on a socket that is not connected is not delivered (`none`). On
`disconnect` the socket has left before its handler runs. -/
def step (s : ServerState) : Event → Option (ServerState × List Emit)
  | Event.connect c =>
    let r := onConnection s.users c
    some (⟨c :: s.connected, r.1⟩, r.2)
  | Event.userLocation c payload now =>
    if c ∈ s.connected then
      let r := onUserLocation s.users c payload now
      some (⟨s.connected, r.1⟩, r.2)
    else none
  | Event.track c id =>
    if c ∈ s.connected then
      let r := onTrack s.users c id
      some (⟨s.connected, r.1⟩, r.2)
    else none
  | Event.disconnect c =>
    if c ∈ s.connected then
      let r := onDisconnect s.users c
      some (⟨s.connected.erase c, r.1⟩, r.2)
    else none

/-- A sequence of events from state `s`, with everything emitted on the way. -/
def run (s : ServerState) : List Event → Option (ServerState × List Emit)
  | [] => some (s, [])
  | ev :: rest =>
    match step s ev with
    | none => none
    | some (s', out) =>
      match run s' rest with
      | none => none
      | some (s'', out') => some (s'', out ++ out')

/-- The invariant of the registry: every key is a connected socket and the entity
under a key carries that key as its id. -/
def RegistryInv (s : ServerState) : Prop :=
  ∀ k e, (k, e) ∈ s.users → k ∈ s.connected ∧ e.id = k

/-- The events of the witness of C6: `A` and `B` connect, both report, `A` sends a
`track` and disconnects. -/
def sampleEvents : List Event :=
  [Event.connect "A", Event.connect "B",
   Event.userLocation "A"
     (JsVal.obj [("lat", JsVal.num (JsNum.fin 40)), ("lng", JsVal.num (JsNum.fin (-74)))]) "t1",
   Event.userLocation "B"
     (JsVal.obj [("lat", JsVal.num (JsNum.fin 10)), ("lng", JsVal.num (JsNum.fin 20)),
       ("name", JsVal.str "Bea")]) "t2",
   Event.track "A" (JsVal.str "B"),
   Event.disconnect "A"]

/-! ## The server: `GET /api/geo-ip` and its cache -/

/-- The object `result` built from the provider's answer. -/
structure GeoResult where
  lat : JsVal
  lng : JsVal
  city : JsVal
  country : JsVal
  ip : JsVal

/-- What `res.json` is given: a result or an object with an `error` text. -/
inductive ResBody where
  | result (r : GeoResult)
  | error (msg : String)

/-- An HTTP response: the status code and the JSON body. -/
structure Response where
  status : Nat
  body : ResBody

/-- An entry of `geoCache`. -/
structure CacheEntry where
  data : GeoResult
  timestamp : Int

/-- The `geoCache` object. -/
abbrev GeoCache := Dict CacheEntry

/-- What the provider call ends in: the `error` event of the request, or the `end`
event of the response with the body that `JSON.parse` returned (`none` when it
throws). -/
inductive ProviderOutcome where
  | error
  | body (parsed : Option JsVal)

/-- The operator `a || b`. -/
def JsVal.orElse (a b : JsVal) : JsVal := if a.truthy then a else b

/-- The test `v === s` against a string literal. -/
def JsVal.isStr (v : JsVal) (s : String) : Bool :=
  match v with
  | JsVal.str t => decide (t = s)
  | _ => false

/-- The condition both lookups put on the parsed answer: `status === 'success'` and
`lat`, `lon` numbers. -/
def geoDataOk (geoData : JsVal) : Bool :=
  (geoData.get "status").isStr "success" && (geoData.get "lat").isNumber &&
    (geoData.get "lon").isNumber

/-- A property read on `null` or `undefined` throws. -/
def JsVal.readThrows : JsVal → Bool
  | JsVal.undefined => true
  | JsVal.null => true
  | _ => false

/-- The callbacks of `getPublicIpAndGeocode`: the response sent once the provider
call has ended. Nothing is written to the cache. -/
def getPublicIpAndGeocode (outcome : ProviderOutcome) : Response :=
  match outcome with
  | ProviderOutcome.error => ⟨500, ResBody.error "Unable to determine location"⟩
  | ProviderOutcome.body none => ⟨500, ResBody.error "Unable to determine location"⟩
  | ProviderOutcome.body (some geoData) =>
    if geoData.readThrows then ⟨500, ResBody.error "Unable to determine location"⟩
    else if geoDataOk geoData then
      ⟨200, ResBody.result
        { lat := geoData.get "lat"
          lng := geoData.get "lon"
          city := (geoData.get "city").orElse (JsVal.str "Unknown")
          country := (geoData.get "country").orElse (JsVal.str "Unknown")
          ip := (geoData.get "ip").orElse (JsVal.str "unknown") }⟩
    else ⟨400, ResBody.error "Unable to determine location"⟩

/-- The callbacks of `geocodeIp`: the cache and the response once the provider call
has ended, at time `doneAt` (`Date.now()` in the `end` callback). -/
def geocodeIp (cache : GeoCache) (ip : String) (outcome : ProviderOutcome) (doneAt : Int) :
    GeoCache × Response :=
  match outcome with
  | ProviderOutcome.error => (cache, ⟨500, ResBody.error "Geocoding failed"⟩)
  | ProviderOutcome.body none => (cache, ⟨500, ResBody.error "Parse failed"⟩)
  | ProviderOutcome.body (some geoData) =>
    if geoData.readThrows then (cache, ⟨500, ResBody.error "Parse failed"⟩)
    else if geoDataOk geoData then
      let result : GeoResult :=
        { lat := geoData.get "lat"
          lng := geoData.get "lon"
          city := (geoData.get "city").orElse (JsVal.str "Unknown")
          country := (geoData.get "country").orElse (JsVal.str "Unknown")
          ip := JsVal.str ip }
      (Dict.set ip ⟨result, doneAt⟩ cache, ⟨200, ResBody.result result⟩)
    else (cache, ⟨400, ResBody.error "Unable to geocode IP"⟩)

/-- The outcome of one request to `/api/geo-ip`: the cache afterwards, the response
and the number of calls made to the provider. -/
structure GeoRun where
  cache : GeoCache
  response : Response
  outbound : Nat

/-- The part of the route `GET /api/geo-ip` after the cache check: a loopback
address goes to `getPublicIpAndGeocode`, any other to `geocodeIp`. -/
def geoIpLookup (cache : GeoCache) (clientIp : String) (outcome : ProviderOutcome)
    (doneAt : Int) : GeoRun :=
  let isLocalhost := clientIp = "::1" ∨ clientIp = "127.0.0.1" ∨ clientIp = "localhost"
  if isLocalhost then ⟨cache, getPublicIpAndGeocode outcome, 1⟩
  else
    let r := geocodeIp cache clientIp outcome doneAt
    ⟨r.1, r.2, 1⟩

/-- The route `GET /api/geo-ip` for a request whose source address, after the
`x-forwarded-for` handling, is `clientIp`. `now` is `Date.now()` in the route,
`outcome` and `doneAt` describe the provider call if one is made. -/
def geoIp (cache : GeoCache) (clientIp : String) (now : Int) (outcome : ProviderOutcome)
    (doneAt : Int) : GeoRun :=
  match Dict.lookup clientIp cache with
  | some entry =>
    if now - entry.timestamp < 600000 then ⟨cache, ⟨200, ResBody.result entry.data⟩, 0⟩
    else geoIpLookup cache clientIp outcome doneAt
  | none => geoIpLookup cache clientIp outcome doneAt

/-- A successful answer of the provider, used in the evaluations below. -/
def sampleGeoData : JsVal :=
  JsVal.obj [("status", JsVal.str "success"), ("country", JsVal.str "Spain"),
    ("city", JsVal.str "Madrid"), ("lat", JsVal.num (JsNum.fin 40)),
    ("lon", JsVal.num (JsNum.fin (-4))), ("isp", JsVal.str "ISP"),
    ("ip", JsVal.str "203.0.113.7")]

/-! ## The renderer -/

/-- The fields of a `MapTrajectoryRenderer` that drawing reads and writes. `mounted`
says that `init` found the host element, so that `mapElement`, `canvas` and `ctx`
are set; `canvasWidth` and `canvasHeight` are `canvas.width` and `canvas.height`,
`styleWidth` and `styleHeight` the CSS size in pixels, `transform` the factor of the
context's scale transform. -/
structure Renderer where
  mounted : Bool
  scale : ℚ
  centerLat : ℚ
  centerLng : ℚ
  canvasWidth : ℤ
  canvasHeight : ℤ
  styleWidth : ℤ
  styleHeight : ℤ
  transform : ℚ

/-- `Math.round`: the nearest integer, a half going up. -/
def mathRound (x : ℚ) : ℤ := ⌊x + 1 / 2⌋

/-- The method `resizeCanvas`, with the host element's `offsetWidth` and
`offsetHeight` and `window.devicePixelRatio` as inputs. -/
def Renderer.resizeCanvas (r : Renderer) (offsetWidth offsetHeight : ℤ)
    (devicePixelRatio : ℚ) : Renderer :=
  if r.mounted then
    let dpr := if devicePixelRatio = 0 then 1 else devicePixelRatio
    { r with
      styleWidth := offsetWidth
      styleHeight := offsetHeight
      canvasWidth := mathRound (offsetWidth * dpr)
      canvasHeight := mathRound (offsetHeight * dpr)
      transform := dpr }
  else r

/-- The constructor followed by `init`: the fields set by the constructor, a canvas
of the default size 300 by 150 when the host element is found, and the first
`resizeCanvas`. -/
def Renderer.create (hostFound : Bool) (offsetWidth offsetHeight : ℤ) (devicePixelRatio : ℚ) :
    Renderer :=
  Renderer.resizeCanvas
    { mounted := hostFound
      scale := 100000
      centerLat := 407128 / 10000
      centerLng := -740060 / 10000
      canvasWidth := 300
      canvasHeight := 150
      styleWidth := 0
      styleHeight := 0
      transform := 1 }
    offsetWidth offsetHeight devicePixelRatio

/-- The method `latLngToPixel`. -/
def Renderer.latLngToPixel (r : Renderer) (lat lng : ℚ) : ℚ × ℚ :=
  ((lng - r.centerLng) * r.scale + r.canvasWidth / 2,
   (r.centerLat - lat) * r.scale + r.canvasHeight / 2)

/-- The method `pixelToLatLng`; the pair is `(lat, lng)`. -/
def Renderer.pixelToLatLng (r : Renderer) (x y : ℚ) : ℚ × ℚ :=
  (r.centerLat - (y - r.canvasHeight / 2) / r.scale,
   r.centerLng + (x - r.canvasWidth / 2) / r.scale)

/-- An object of the map handed to `draw`. -/
structure MapObject where
  lat : ℚ
  lng : ℚ
  trajectory : List (ℚ × ℚ)
  status : String
  speed : ℚ
  heading : ℚ

/-- A call on the 2D context, in the order made. `arc x y r` is the full circle
`arc(x, y, r, 0, Math.PI * 2)`, `rotate h` the rotation by `h` degrees
(`h * Math.PI / 180` radians), `fillGradient x y r c0 c1` the assignment to
`fillStyle` of the radial gradient around `(x, y)` from radius `0` to `r` with the
colour stops `c0` and `c1`. -/
inductive Cmd where
  | clearRect (x y w h : ℚ)
  | strokeStyle (c : String)
  | fillStyle (c : String)
  | fillGradient (x y r : ℚ) (c0 c1 : String)
  | globalAlpha (a : ℚ)
  | lineWidth (w : ℚ)
  | lineCap (s : String)
  | lineJoin (s : String)
  | beginPath
  | moveTo (x y : ℚ)
  | lineTo (x y : ℚ)
  | arc (x y r : ℚ)
  | stroke
  | fill
  | save
  | restore
  | translate (x y : ℚ)
  | rotate (h : ℚ)
  deriving DecidableEq

/-- The method `drawTrajectory`. -/
def Renderer.drawTrajectory (r : Renderer) (obj : MapObject) (isCurrent : Bool) : List Cmd :=
  if obj.trajectory.length < 2 then []
  else
    match obj.trajectory with
    | [] => []
    | first :: rest =>
      [Cmd.strokeStyle (if isCurrent then "#135bec" else "#999"),
       Cmd.globalAlpha (if isCurrent then 8 / 10 else 3 / 10),
       Cmd.lineWidth (if isCurrent then 3 else 1),
       Cmd.lineCap "round",
       Cmd.lineJoin "round",
       Cmd.beginPath,
       Cmd.moveTo (r.latLngToPixel first.1 first.2).1 (r.latLngToPixel first.1 first.2).2]
      ++ rest.map (fun p => Cmd.lineTo (r.latLngToPixel p.1 p.2).1 (r.latLngToPixel p.1 p.2).2)
      ++ [Cmd.stroke, Cmd.globalAlpha 1]

/-- The method `drawDirectionArrow`. -/
def Renderer.drawDirectionArrow (pos : ℚ × ℚ) (heading : ℚ) (size : ℚ) : List Cmd :=
  let arrowSize := size * 2
  [Cmd.save, Cmd.translate pos.1 pos.2, Cmd.rotate heading,
   Cmd.strokeStyle "#135bec", Cmd.lineWidth 2, Cmd.beginPath,
   Cmd.moveTo 0 (-arrowSize), Cmd.lineTo (-arrowSize * (4 / 10)) (-arrowSize * (4 / 10)),
   Cmd.moveTo 0 (-arrowSize), Cmd.lineTo (arrowSize * (4 / 10)) (-arrowSize * (4 / 10)),
   Cmd.stroke, Cmd.restore]

/-- The method `drawMarker`. -/
def Renderer.drawMarker (r : Renderer) (obj : MapObject) (isCurrent : Bool) : List Cmd :=
  let pos := r.latLngToPixel obj.lat obj.lng
  let size : ℚ := if isCurrent then 12 else 8
  let color := if obj.status = "Moving" then "#22c55e" else "#eab308"
  [Cmd.fillGradient pos.1 pos.2 (size * 3) (color ++ "40") (color ++ "00"),
   Cmd.beginPath, Cmd.arc pos.1 pos.2 (size * 3), Cmd.fill,
   Cmd.fillStyle color, Cmd.beginPath, Cmd.arc pos.1 pos.2 size, Cmd.fill,
   Cmd.strokeStyle "#fff", Cmd.lineWidth 2, Cmd.stroke]
  ++ (if obj.status = "Moving" ∧ obj.speed > 0 then
        Renderer.drawDirectionArrow pos obj.heading size
      else [])

/-- The body of the loop of `draw` for the key `objId`. -/
def Renderer.drawObject (r : Renderer) (objects : Dict MapObject) (currentObjectId : String)
    (objId : String) : List Cmd :=
  match Dict.lookup objId objects with
  | some obj =>
    r.drawTrajectory obj (decide (objId = currentObjectId))
      ++ r.drawMarker obj (decide (objId = currentObjectId))
  | none => []

/-- The loop of `draw` over the keys `ks`. -/
def Renderer.drawObjects (r : Renderer) (objects : Dict MapObject) (currentObjectId : String) :
    List String → List Cmd
  | [] => []
  | objId :: ks =>
    r.drawObject objects currentObjectId objId ++ r.drawObjects objects currentObjectId ks

/-- The centre after the follow step of `draw`. -/
def Renderer.follow (r : Renderer) (objects : Dict MapObject) (currentObjectId : String) :
    Renderer :=
  match Dict.lookup currentObjectId objects with
  | some currentObject => { r with centerLat := currentObject.lat, centerLng := currentObject.lng }
  | none => r

/-- The method `draw`: the renderer afterwards and the calls made on the context. -/
def Renderer.draw (r : Renderer) (objects : Dict MapObject) (currentObjectId : String) :
    Renderer × List Cmd :=
  if !r.mounted then (r, [])
  else
    let r' := r.follow objects currentObjectId
    (r', Cmd.clearRect 0 0 r.canvasWidth r.canvasHeight
          :: r'.drawObjects objects currentObjectId (Dict.keys objects))

/-- The vertices of the paths in a list of calls: the points of its `moveTo` and
`lineTo` calls, in order. -/
def vertices : List Cmd → List (ℚ × ℚ)
  | [] => []
  | Cmd.moveTo x y :: cs => (x, y) :: vertices cs
  | Cmd.lineTo x y :: cs => (x, y) :: vertices cs
  | _ :: cs => vertices cs

/-- A piece of the context's current path: a polyline through points, or a full
circle. -/
inductive Subpath where
  | polyline (pts : List (ℚ × ℚ))
  | circle (x y r : ℚ)
  deriving DecidableEq

/-- The effect of `lineTo` on the current path: the point is joined to the polyline
that ends the path; on a path that does not end in a polyline it starts one. -/
def lineToPath (pt : ℚ × ℚ) : List Subpath → List Subpath
  | [] => [Subpath.polyline [pt]]
  | [Subpath.polyline pts] => [Subpath.polyline (pts ++ [pt])]
  | [Subpath.circle x y r] => [Subpath.circle x y r, Subpath.polyline [pt]]
  | s :: s' :: rest => s :: lineToPath pt (s' :: rest)

/-- The paths stroked by a list of calls made on a context whose current path is
`path`, one entry per `stroke` call, each the current path at that call:
`beginPath` empties the path, `moveTo` starts a new polyline, `lineTo` extends the
last one, `arc` adds a circle; the other calls leave the path alone. Coordinates are
read as passed to the calls. -/
def strokesFrom (path : List Subpath) : List Cmd → List (List Subpath)
  | [] => []
  | Cmd.beginPath :: cs => strokesFrom [] cs
  | Cmd.moveTo x y :: cs => strokesFrom (path ++ [Subpath.polyline [(x, y)]]) cs
  | Cmd.lineTo x y :: cs => strokesFrom (lineToPath (x, y) path) cs
  | Cmd.arc x y r :: cs => strokesFrom (path ++ [Subpath.circle x y r]) cs
  | Cmd.stroke :: cs => path :: strokesFrom path cs
  | Cmd.clearRect _ _ _ _ :: cs => strokesFrom path cs
  | Cmd.strokeStyle _ :: cs => strokesFrom path cs
  | Cmd.fillStyle _ :: cs => strokesFrom path cs
  | Cmd.fillGradient _ _ _ _ _ :: cs => strokesFrom path cs
  | Cmd.globalAlpha _ :: cs => strokesFrom path cs
  | Cmd.lineWidth _ :: cs => strokesFrom path cs
  | Cmd.lineCap _ :: cs => strokesFrom path cs
  | Cmd.lineJoin _ :: cs => strokesFrom path cs
  | Cmd.fill :: cs => strokesFrom path cs
  | Cmd.save :: cs => strokesFrom path cs
  | Cmd.restore :: cs => strokesFrom path cs
  | Cmd.translate _ _ :: cs => strokesFrom path cs
  | Cmd.rotate _ :: cs => strokesFrom path cs

/-- A map of two objects, used in the evaluations below: `A` with a trajectory of two
points, `B` with a trajectory of one. -/
def sampleObjects : Dict MapObject :=
  [("A", ⟨40, -74, [(40, -74), (40001 / 1000, -74001 / 1000)], "Stopped", 0, 0⟩),
   ("B", ⟨41, -73, [(41, -73)], "Moving", 5, 90⟩)]

/-- A renderer on a host of 800 by 600 CSS pixels at pixel density 2, after a further
`resizeCanvas`. -/
def hiDpiRenderer : Renderer :=
  (Renderer.create true 800 600 2).resizeCanvas 800 600 2

/-! ## Lemmas on dictionaries -/

namespace Dict

variable {α : Type}

theorem lookup_set_self (k : String) (e : α) (d : Dict α) : lookup k (set k e d) = some e := by
  induction d with
  | nil => simp [set, lookup]
  | cons hd tl ih =>
    obtain ⟨k', e'⟩ := hd
    by_cases h : k' = k
    · simp [set, lookup, h]
    · simp [set, lookup, h, ih]

theorem lookup_set_ne {k k' : String} (e : α) (d : Dict α) (hne : k' ≠ k) :
    lookup k' (set k e d) = lookup k' d := by
  induction d with
  | nil => simp [set, lookup, Ne.symm hne]
  | cons hd tl ih =>
    obtain ⟨k₀, e₀⟩ := hd
    by_cases h : k₀ = k
    · subst h
      simp [set, lookup, Ne.symm hne]
    · by_cases h' : k₀ = k'
      · subst h'
        simp [set, lookup, h]
      · simp [set, lookup, h, h', ih]

theorem lookup_delete_self (k : String) (d : Dict α) : lookup k (delete k d) = none := by
  induction d with
  | nil => simp [delete, lookup]
  | cons hd tl ih =>
    obtain ⟨k', e'⟩ := hd
    by_cases h : k' = k
    · simp [delete, h, ih]
    · simp [delete, lookup, h, ih]

theorem lookup_delete_ne {k k' : String} (d : Dict α) (hne : k' ≠ k) :
    lookup k' (delete k d) = lookup k' d := by
  induction d with
  | nil => simp [delete, lookup]
  | cons hd tl ih =>
    obtain ⟨k₀, e₀⟩ := hd
    by_cases h : k₀ = k
    · subst h
      simp [delete, lookup, Ne.symm hne, ih]
    · by_cases h' : k₀ = k'
      · subst h'
        simp [delete, lookup, h]
      · simp [delete, lookup, h, h', ih]

theorem mem_of_mem_set {k : String} {e : α} {d : Dict α} {p : String × α}
    (hp : p ∈ set k e d) : p = (k, e) ∨ p ∈ d := by
  induction d with
  | nil => simpa [set] using hp
  | cons hd tl ih =>
    obtain ⟨k', e'⟩ := hd
    by_cases h : k' = k
    · simp only [set, h, if_true, List.mem_cons] at hp
      rcases hp with hp | hp
      · exact Or.inl hp
      · exact Or.inr (List.mem_cons_of_mem _ hp)
    · simp only [set, h, if_false, List.mem_cons] at hp
      rcases hp with hp | hp
      · exact Or.inr (hp ▸ List.mem_cons_self _ _)
      · rcases ih hp with h1 | h1
        · exact Or.inl h1
        · exact Or.inr (List.mem_cons_of_mem _ h1)

theorem mem_of_mem_delete {k : String} {d : Dict α} {p : String × α}
    (hp : p ∈ delete k d) : p ∈ d ∧ p.1 ≠ k := by
  induction d with
  | nil => simp [delete] at hp
  | cons hd tl ih =>
    obtain ⟨k', e'⟩ := hd
    by_cases h : k' = k
    · simp only [delete, h, if_true] at hp
      exact ⟨List.mem_cons_of_mem _ (ih hp).1, (ih hp).2⟩
    · simp only [delete, h, if_false, List.mem_cons] at hp
      rcases hp with hp | hp
      · subst hp
        exact ⟨List.mem_cons_self _ _, h⟩
      · exact ⟨List.mem_cons_of_mem _ (ih hp).1, (ih hp).2⟩

theorem lookup_eq_none_iff (k : String) (d : Dict α) : lookup k d = none ↔ k ∉ keys d := by
  induction d with
  | nil => simp [lookup, keys]
  | cons hd tl ih =>
    obtain ⟨k', e'⟩ := hd
    by_cases h : k' = k
    · simp [lookup, keys, h]
    · have h2 : ¬ k = k' := fun hh => h hh.symm
      simpa [lookup, keys, h, h2] using ih

theorem lookup_of_mem_nodup {k : String} {e : α} {d : Dict α} (hnd : (keys d).Nodup)
    (hm : (k, e) ∈ d) : lookup k d = some e := by
  induction d with
  | nil => simp at hm
  | cons hd tl ih =>
    obtain ⟨k', e'⟩ := hd
    simp only [keys, List.map_cons, List.nodup_cons] at hnd
    rcases List.mem_cons.mp hm with h | h
    · cases h
      simp [lookup]
    · have hk : k ∈ tl.map Prod.fst := List.mem_map.mpr ⟨(k, e), h, rfl⟩
      have hne : k' ≠ k := fun hh => hnd.1 (hh ▸ hk)
      simp [lookup, hne, ih hnd.2 h]

end Dict

/-! ## The socket handlers -/

/-- A value with a numeric `lat` property is an object, hence truthy. -/
theorem truthy_of_get_num {payload : JsVal} {k : String} {n : JsNum}
    (h : payload.get k = JsVal.num n) : payload.truthy = true := by
  cases payload <;> first | rfl | simp [JsVal.get] at h

/-- On a finite number the range test of the handler is the comparison of the
absolute value of its real value with the bound. -/
theorem abs_gt_of_finite {n : JsNum} (hf : n.isFinite = true) (b : ℚ) :
    n.abs.gt (JsNum.fin b) = decide (|n.toRat| > b) := by
  cases n <;> simp [JsNum.isFinite] at hf <;> simp [JsNum.abs, JsNum.gt, JsNum.toRat]

/-- What the handler does with a report whose `lat` and `lng` are numbers within
the bounds or `NaN`: the upsert and the broadcast. -/
theorem onUserLocation_accept (users : Registry) (c : String) (payload : JsVal) (now : String)
    (lat lng : JsNum) (hlat : payload.get "lat" = JsVal.num lat)
    (hlng : payload.get "lng" = JsVal.num lng)
    (hla : lat.abs.gt (JsNum.fin 90) = false) (hlo : lng.abs.gt (JsNum.fin 180) = false) :
    onUserLocation users c payload now =
      (Dict.set c ⟨c, now, lat, lng,
          match payload.get "name" with
          | JsVal.str s => s
          | _ => "User"⟩ users,
        [⟨Target.all, "users", Dict.set c ⟨c, now, lat, lng,
          match payload.get "name" with
          | JsVal.str s => s
          | _ => "User"⟩ users⟩]) := by
  have ht := truthy_of_get_num hlat
  simp [onUserLocation, ht, hlat, hlng, JsVal.isNumber, hla, hlo]

/-- C1: a `user-location` payload that is missing, or whose `lat` or `lng` is not a
number, or whose `lat` or `lng` is a finite number out of range (`|lat| > 90`,
`|lng| > 180`) leaves the registry as it was and emits nothing. -/
theorem C1_invalid_report_is_dropped (users : Registry) (c : String) (payload : JsVal)
    (now : String)
    (h : payload = JsVal.undefined ∨ payload = JsVal.null ∨
      (payload.get "lat").isNumber = false ∨ (payload.get "lng").isNumber = false ∨
      (∃ q : ℚ, payload.get "lat" = JsVal.num (JsNum.fin q) ∧ |q| > 90) ∨
      (∃ q : ℚ, payload.get "lng" = JsVal.num (JsNum.fin q) ∧ |q| > 180)) :
    onUserLocation users c payload now = (users, []) := by
  rcases h with h | h | h | h | ⟨q, hq, hr⟩ | ⟨q, hq, hr⟩
  · subst h; simp [onUserLocation, JsVal.truthy]
  · subst h; simp [onUserLocation, JsVal.truthy]
  · simp [onUserLocation, h]
  · simp [onUserLocation, h]
  · unfold onUserLocation
    split
    · rfl
    · rw [hq]
      split
      · next lat lng h1 h2 =>
        cases h1
        simp [JsNum.abs, JsNum.gt, hr]
      · rfl
  · unfold onUserLocation
    split
    · rfl
    · rw [hq]
      split
      · next lat lng h1 h2 =>
        cases h2
        simp [JsNum.abs, JsNum.gt, hr]
      · rfl

/-- A witness of C1: the reports `lat = 91` and `lng = 200` on a registry holding
one entity. -/
theorem C1_invalid_report_is_dropped_witness :
    onUserLocation [("B", ⟨"B", "t0", JsNum.fin 1, JsNum.fin 2, "User"⟩)] "A"
        (JsVal.obj [("lat", JsVal.num (JsNum.fin 91)), ("lng", JsVal.num (JsNum.fin 0))]) "t1"
      = ([("B", ⟨"B", "t0", JsNum.fin 1, JsNum.fin 2, "User"⟩)], []) :=
  C1_invalid_report_is_dropped _ "A" _ "t1"
    (Or.inr (Or.inr (Or.inr (Or.inr (Or.inl ⟨91, rfl, by norm_num⟩)))))

/-- C2, amended: a report whose `lat` or `lng` is `+Infinity` or `-Infinity` is
rejected, whatever the rest of the payload is: the registry is as before the call
and nothing is emitted. -/
theorem C2_infinite_report_is_dropped (users : Registry) (c : String) (payload : JsVal)
    (now : String)
    (h : payload.get "lat" = JsVal.num JsNum.posInf ∨ payload.get "lat" = JsVal.num JsNum.negInf ∨
      payload.get "lng" = JsVal.num JsNum.posInf ∨ payload.get "lng" = JsVal.num JsNum.negInf) :
    onUserLocation users c payload now = (users, []) := by
  unfold onUserLocation
  split
  · rfl
  · split
    · next lat lng h1 h2 =>
      have hbig : (lat.abs.gt (JsNum.fin 90) || lng.abs.gt (JsNum.fin 180)) = true := by
        rcases h with h | h | h | h
        · rw [h1] at h; cases h; simp [JsNum.abs, JsNum.gt]
        · rw [h1] at h; cases h; simp [JsNum.abs, JsNum.gt]
        · rw [h2] at h; cases h; simp [JsNum.abs, JsNum.gt]
        · rw [h2] at h; cases h; simp [JsNum.abs, JsNum.gt]
      simp [hbig]
    · rfl

/-- A witness of C2 as amended: the report `lat = 0`, `lng = -Infinity` on a registry
holding one entity. -/
theorem C2_infinite_report_is_dropped_witness :
    onUserLocation [("B", ⟨"B", "t0", JsNum.fin 1, JsNum.fin 2, "User"⟩)] "A"
        (JsVal.obj [("lat", JsVal.num (JsNum.fin 0)), ("lng", JsVal.num JsNum.negInf)]) "t1"
      = ([("B", ⟨"B", "t0", JsNum.fin 1, JsNum.fin 2, "User"⟩)], []) :=
  C2_infinite_report_is_dropped _ "A"
    (JsVal.obj [("lat", JsVal.num (JsNum.fin 0)), ("lng", JsVal.num JsNum.negInf)]) "t1"
    (Or.inr (Or.inr (Or.inr rfl)))

/-- C2 as stated fails on the handler: at the report `lat = NaN`, `lng = 0` on the
empty registry both comparisons `Math.abs(lat) > 90` and `Math.abs(lng) > 180` are
false, so the report is stored and broadcast instead of being rejected. -/
theorem C2_nan_report_is_stored :
    onUserLocation [] "A"
        (JsVal.obj [("lat", JsVal.num JsNum.nan), ("lng", JsVal.num (JsNum.fin 0))]) "t1"
      = ([("A", ⟨"A", "t1", JsNum.nan, JsNum.fin 0, "User"⟩)],
         [⟨Target.all, "users", [("A", ⟨"A", "t1", JsNum.nan, JsNum.fin 0, "User"⟩)]⟩]) ∧
    onUserLocation [] "A"
        (JsVal.obj [("lat", JsVal.num JsNum.nan), ("lng", JsVal.num (JsNum.fin 0))]) "t1"
      ≠ ([], []) := by
  have hrun : onUserLocation [] "A"
      (JsVal.obj [("lat", JsVal.num JsNum.nan), ("lng", JsVal.num (JsNum.fin 0))]) "t1"
      = ([("A", ⟨"A", "t1", JsNum.nan, JsNum.fin 0, "User"⟩)],
         [⟨Target.all, "users", [("A", ⟨"A", "t1", JsNum.nan, JsNum.fin 0, "User"⟩)]⟩]) := by
    rw [onUserLocation_accept [] "A"
      (JsVal.obj [("lat", JsVal.num JsNum.nan), ("lng", JsVal.num (JsNum.fin 0))]) "t1"
      JsNum.nan (JsNum.fin 0) rfl rfl rfl (by simp [JsNum.abs, JsNum.gt])]
    rfl
  refine ⟨hrun, ?_⟩
  rw [hrun]
  simp

/-- C3: a report with finite `lat` in `[-90, 90]` and `lng` in `[-180, 180]` and an
optional name (`name` is `some s` exactly when the payload's `name` is the string
`s`) makes the registry map `c` to the entity with id `c`, these coordinates, the
reported name or `"User"`, and `lastUpdate = now`, whatever was stored under `c`
before; every other key reads as before; and exactly one `users`
message is emitted, addressed to all connected sockets (the sender among them),
carrying the resulting registry. -/
theorem C3_valid_report_upserts_and_broadcasts (users : Registry) (c : String)
    (payload : JsVal) (now : String) (lat lng : JsNum) (name : Option String)
    (hlat : payload.get "lat" = JsVal.num lat) (hlng : payload.get "lng" = JsVal.num lng)
    (hname : ∀ s, payload.get "name" = JsVal.str s ↔ name = some s)
    (hlatFin : lat.isFinite = true) (hlngFin : lng.isFinite = true)
    (hlatRange : |lat.toRat| ≤ 90) (hlngRange : |lng.toRat| ≤ 180) :
    Dict.lookup c (onUserLocation users c payload now).1
        = some ⟨c, now, lat, lng, name.getD "User"⟩ ∧
    (∀ k, k ≠ c → Dict.lookup k (onUserLocation users c payload now).1 = Dict.lookup k users) ∧
    (onUserLocation users c payload now).2
        = [⟨Target.all, "users", (onUserLocation users c payload now).1⟩] ∧
    (∀ m ∈ (onUserLocation users c payload now).2, ∀ connected : List String,
        m.recipients connected = connected ∧ (c ∈ connected → c ∈ m.recipients connected)) := by
  have hla : lat.abs.gt (JsNum.fin 90) = false := by
    rw [abs_gt_of_finite hlatFin]; simpa using hlatRange
  have hlo : lng.abs.gt (JsNum.fin 180) = false := by
    rw [abs_gt_of_finite hlngFin]; simpa using hlngRange
  have hn : (match payload.get "name" with
      | JsVal.str s => s
      | _ => "User") = name.getD "User" := by
    cases name with
    | some s => rw [(hname s).mpr rfl]; rfl
    | none =>
      have hno : ∀ s, payload.get "name" ≠ JsVal.str s := fun s hs => by
        have := (hname s).mp hs
        cases this
      cases hp : payload.get "name" <;> first | rfl | exact absurd hp (hno _)
  rw [onUserLocation_accept users c payload now lat lng hlat hlng hla hlo, hn]
  refine ⟨Dict.lookup_set_self _ _ _, fun k hk => Dict.lookup_set_ne _ _ hk, rfl, ?_⟩
  intro m hm connected
  simp only [List.mem_singleton] at hm
  subst hm
  exact ⟨rfl, fun h => h⟩

/-- A witness of C3: connection `A` reports `(40.0, -74.0)` and then
`(40.001, -74.001)`; the theorem is applied to the second report on the registry the
first one left. -/
theorem C3_valid_report_upserts_and_broadcasts_witness :
    Dict.lookup "A" (onUserLocation
        (onUserLocation [] "A"
          (JsVal.obj [("lat", JsVal.num (JsNum.fin 40)), ("lng", JsVal.num (JsNum.fin (-74)))])
          "t1").1 "A"
        (JsVal.obj [("lat", JsVal.num (JsNum.fin (40001 / 1000))),
          ("lng", JsVal.num (JsNum.fin (-74001 / 1000))), ("name", JsVal.str "Ana")]) "t2").1
      = some ⟨"A", "t2", JsNum.fin (40001 / 1000), JsNum.fin (-74001 / 1000), "Ana"⟩ :=
  (C3_valid_report_upserts_and_broadcasts _ "A"
    (JsVal.obj [("lat", JsVal.num (JsNum.fin (40001 / 1000))),
      ("lng", JsVal.num (JsNum.fin (-74001 / 1000))), ("name", JsVal.str "Ana")])
    "t2" (JsNum.fin (40001 / 1000))
    (JsNum.fin (-74001 / 1000)) (some "Ana") rfl rfl
    (fun s => by simp [JsVal.get, JsVal.lookupField]) rfl rfl
    (by simp only [JsNum.toRat]; rw [abs_le]; constructor <;> norm_num)
    (by simp only [JsNum.toRat]; rw [abs_le]; constructor <;> norm_num)).1

/-- C4: the disconnect handler of `c` leaves a registry without `c` in which every
other key reads as before, and emits one `users` broadcast carrying that registry
exactly when `c` had an entry (nothing otherwise); so after a valid report of `c`
followed by its disconnect the registry is without `c` and the snapshot sent, which
reaches the connections that remain, does not contain `c`. -/
theorem C4_disconnect_removes_and_broadcasts (users : Registry) (c : String) :
    Dict.lookup c (onDisconnect users c).1 = none ∧
    c ∉ Dict.keys (onDisconnect users c).1 ∧
    (∀ k, k ≠ c → Dict.lookup k (onDisconnect users c).1 = Dict.lookup k users) ∧
    (onDisconnect users c).2
        = (if (Dict.lookup c users).isSome then
            [⟨Target.all, "users", (onDisconnect users c).1⟩] else []) ∧
    (∀ (payload : JsVal) (now : String) (lat lng : JsNum),
        payload.get "lat" = JsVal.num lat → payload.get "lng" = JsVal.num lng →
        lat.isFinite = true → lng.isFinite = true →
        |lat.toRat| ≤ 90 → |lng.toRat| ≤ 180 →
        Dict.lookup c (onDisconnect (onUserLocation users c payload now).1 c).1 = none ∧
        ∃ m, (onDisconnect (onUserLocation users c payload now).1 c).2 = [m] ∧
          m.event = "users" ∧ Dict.lookup c m.payload = none ∧ c ∉ Dict.keys m.payload ∧
          ∀ connected : List String, m.recipients (connected.erase c) = connected.erase c) := by
  have key : ∀ u : Registry, Dict.lookup c (onDisconnect u c).1 = none := by
    intro u
    unfold onDisconnect
    cases h : Dict.lookup c u with
    | none => simpa using h
    | some e => simpa using Dict.lookup_delete_self c u
  refine ⟨key users, (Dict.lookup_eq_none_iff _ _).mp (key users), ?_, ?_, ?_⟩
  · intro k hk
    unfold onDisconnect
    cases h : Dict.lookup c users with
    | none => rfl
    | some e => simpa using Dict.lookup_delete_ne users hk
  · unfold onDisconnect
    cases h : Dict.lookup c users <;> simp
  · intro payload now lat lng hlat hlng hlatFin hlngFin hlatRange hlngRange
    refine ⟨key _, ?_⟩
    have hla : lat.abs.gt (JsNum.fin 90) = false := by
      rw [abs_gt_of_finite hlatFin]; simpa using hlatRange
    have hlo : lng.abs.gt (JsNum.fin 180) = false := by
      rw [abs_gt_of_finite hlngFin]; simpa using hlngRange
    obtain ⟨e, he⟩ : ∃ e, Dict.lookup c (onUserLocation users c payload now).1 = some e := by
      rw [onUserLocation_accept users c payload now lat lng hlat hlng hla hlo]
      exact ⟨_, Dict.lookup_set_self _ _ _⟩
    generalize (onUserLocation users c payload now).1 = u at he
    refine ⟨⟨Target.all, "users", Dict.delete c u⟩, ?_, rfl,
      Dict.lookup_delete_self c u, (Dict.lookup_eq_none_iff _ _).mp (Dict.lookup_delete_self c u),
      fun _ => rfl⟩
    simp [onDisconnect, he]

/-- A witness of C4: connection `A` reports `(40.0, -74.0)` next to an entity of
`B` and disconnects. -/
theorem C4_disconnect_removes_and_broadcasts_witness :
    Dict.lookup "A" (onDisconnect (onUserLocation
        [("B", ⟨"B", "t0", JsNum.fin 1, JsNum.fin 2, "User"⟩)] "A"
        (JsVal.obj [("lat", JsVal.num (JsNum.fin 40)), ("lng", JsVal.num (JsNum.fin (-74)))])
        "t1").1 "A").1 = none :=
  ((C4_disconnect_removes_and_broadcasts
      [("B", ⟨"B", "t0", JsNum.fin 1, JsNum.fin 2, "User"⟩)] "A").2.2.2.2
    (JsVal.obj [("lat", JsVal.num (JsNum.fin 40)), ("lng", JsVal.num (JsNum.fin (-74)))])
    "t1" (JsNum.fin 40) (JsNum.fin (-74)) rfl rfl rfl rfl
    (by simp only [JsNum.toRat]; rw [abs_le]; constructor <;> norm_num)
    (by simp only [JsNum.toRat]; rw [abs_le]; constructor <;> norm_num)).1

/-- C5: the connection handler for `b` leaves the registry as it is and emits exactly
one `users` message, addressed to `b` alone, carrying the current registry; so when
`a` has reported `(40.0, -74.0)` and `b` connects, the snapshot `b` receives holds the
entity of `a` with `lat = 40.0` and `lng = -74.0`. -/
theorem C5_connect_sends_snapshot_to_newcomer (users : Registry) (b : String) :
    (onConnection users b).1 = users ∧
    (onConnection users b).2 = [⟨Target.only b, "users", users⟩] ∧
    (∀ m ∈ (onConnection users b).2, ∀ (connected : List String) (d : String),
        d ∈ m.recipients connected ↔ d = b ∧ d ∈ connected) ∧
    (∀ (a now : String) (name : JsVal),
        ∃ m e, (onConnection (onUserLocation users a
            (JsVal.obj [("lat", JsVal.num (JsNum.fin 40)), ("lng", JsVal.num (JsNum.fin (-74))),
              ("name", name)]) now).1 b).2 = [m] ∧
          m.target = Target.only b ∧ Dict.lookup a m.payload = some e ∧
          e.id = a ∧ e.lat = JsNum.fin 40 ∧ e.lng = JsNum.fin (-74)) := by
  refine ⟨rfl, rfl, ?_, ?_⟩
  · intro m hm connected d
    simp only [onConnection, List.mem_singleton] at hm
    subst hm
    simp only [Emit.recipients, List.mem_filter, decide_eq_true_eq]
    exact And.comm
  · intro a now name
    rw [onUserLocation_accept users a
      (JsVal.obj [("lat", JsVal.num (JsNum.fin 40)), ("lng", JsVal.num (JsNum.fin (-74))),
        ("name", name)]) now (JsNum.fin 40) (JsNum.fin (-74)) rfl rfl
      (by simp [JsNum.abs, JsNum.gt]; norm_num) (by simp [JsNum.abs, JsNum.gt]; norm_num)]
    exact ⟨_, _, rfl, rfl, Dict.lookup_set_self _ _ _, rfl, rfl, rfl⟩

/-- A witness of C5: `A` reports `(40.0, -74.0)` on the empty registry, then `B`
connects. -/
theorem C5_connect_sends_snapshot_to_newcomer_witness :
    (onConnection (onUserLocation [] "A"
        (JsVal.obj [("lat", JsVal.num (JsNum.fin 40)), ("lng", JsVal.num (JsNum.fin (-74)))])
        "t1").1 "B").2
      = [⟨Target.only "B", "users", (onUserLocation [] "A"
        (JsVal.obj [("lat", JsVal.num (JsNum.fin 40)), ("lng", JsVal.num (JsNum.fin (-74)))])
        "t1").1⟩] :=
  (C5_connect_sends_snapshot_to_newcomer _ "B").2.1

theorem onUserLocation_entries (users : Registry) (c : String) (payload : JsVal)
    (now : String) (p : String × Entity) (hp : p ∈ (onUserLocation users c payload now).1) :
    p ∈ users ∨ (p.1 = c ∧ p.2.id = c) := by
  unfold onUserLocation at hp
  split at hp
  · exact Or.inl hp
  · split at hp
    · split at hp
      · exact Or.inl hp
      · rcases Dict.mem_of_mem_set hp with h | h
        · right; subst h; exact ⟨rfl, rfl⟩
        · exact Or.inl h
    · exact Or.inl hp

theorem onDisconnect_entries (users : Registry) (c : String) (p : String × Entity)
    (hp : p ∈ (onDisconnect users c).1) : p ∈ users ∧ p.1 ≠ c := by
  unfold onDisconnect at hp
  cases h : Dict.lookup c users with
  | none =>
    rw [h] at hp
    refine ⟨hp, fun hc => ?_⟩
    have hk : c ∈ Dict.keys users := List.mem_map.mpr ⟨p, hp, hc⟩
    exact (Dict.lookup_eq_none_iff c users).mp h hk
  | some e =>
    rw [h] at hp
    exact Dict.mem_of_mem_delete hp

theorem step_preserves_inv {s s' : ServerState} {ev : Event} {out : List Emit}
    (hinv : RegistryInv s) (hstep : step s ev = some (s', out)) : RegistryInv s' := by
  cases ev with
  | connect c =>
    simp only [step, onConnection, Option.some.injEq, Prod.mk.injEq] at hstep
    obtain ⟨rfl, -⟩ := hstep
    intro k e hk
    exact ⟨List.mem_cons_of_mem _ (hinv k e hk).1, (hinv k e hk).2⟩
  | userLocation c payload now =>
    simp only [step] at hstep
    split at hstep
    · next hc =>
      simp only [Option.some.injEq, Prod.mk.injEq] at hstep
      obtain ⟨rfl, -⟩ := hstep
      intro k e hk
      rcases onUserLocation_entries s.users c payload now (k, e) hk with h | ⟨h1, h2⟩
      · exact hinv k e h
      · simp only at h1 h2
        subst h1
        exact ⟨hc, h2⟩
    · cases hstep
  | track c id =>
    simp only [step] at hstep
    split at hstep
    · simp only [onTrack, Option.some.injEq, Prod.mk.injEq] at hstep
      obtain ⟨rfl, -⟩ := hstep
      exact hinv
    · cases hstep
  | disconnect c =>
    simp only [step] at hstep
    split at hstep
    · simp only [Option.some.injEq, Prod.mk.injEq] at hstep
      obtain ⟨rfl, -⟩ := hstep
      intro k e hk
      obtain ⟨h1, h2⟩ := onDisconnect_entries s.users c (k, e) hk
      exact ⟨(List.mem_erase_of_ne h2).mpr (hinv k e h1).1, (hinv k e h1).2⟩
    · cases hstep

theorem run_preserves_inv (evs : List Event) :
    ∀ (s s' : ServerState) (out : List Emit), RegistryInv s → run s evs = some (s', out) →
      RegistryInv s' := by
  induction evs with
  | nil =>
    intro s s' out hinv hrun
    simp only [run, Option.some.injEq, Prod.mk.injEq] at hrun
    obtain ⟨rfl, -⟩ := hrun
    exact hinv
  | cons ev rest ih =>
    intro s s' out hinv hrun
    unfold run at hrun
    cases h1 : step s ev with
    | none => rw [h1] at hrun; cases hrun
    | some r1 =>
      obtain ⟨s1, out1⟩ := r1
      rw [h1] at hrun
      simp only at hrun
      cases h2 : run s1 rest with
      | none => rw [h2] at hrun; cases hrun
      | some r2 =>
        obtain ⟨s2, out2⟩ := r2
        rw [h2] at hrun
        simp only [Option.some.injEq, Prod.mk.injEq] at hrun
        obtain ⟨rfl, -⟩ := hrun
        exact ih s1 s2 out2 (step_preserves_inv hinv h1) h2

/-- C6: in every state reached from the empty registry by connect, user-location,
track and disconnect events, the last three delivered on connected sockets only,
every key of the registry is a connected socket and the entity under key `k` has
`id = k`. -/
theorem C6_registry_keys_are_connected (evs : List Event) (s : ServerState) (out : List Emit)
    (hrun : run ServerState.init evs = some (s, out)) :
    ∀ k e, (k, e) ∈ s.users → k ∈ s.connected ∧ e.id = k :=
  run_preserves_inv evs ServerState.init s out (fun _ _ h => by simp [ServerState.init] at h) hrun

/-- The run of `sampleEvents` from the initial state. -/
theorem run_sampleEvents :
    run ServerState.init sampleEvents =
      some (⟨["B"], [("B", ⟨"B", "t2", JsNum.fin 10, JsNum.fin 20, "Bea"⟩)]⟩,
        [⟨Target.only "A", "users", []⟩,
         ⟨Target.only "B", "users", []⟩,
         ⟨Target.all, "users", [("A", ⟨"A", "t1", JsNum.fin 40, JsNum.fin (-74), "User"⟩)]⟩,
         ⟨Target.all, "users", [("A", ⟨"A", "t1", JsNum.fin 40, JsNum.fin (-74), "User"⟩),
           ("B", ⟨"B", "t2", JsNum.fin 10, JsNum.fin 20, "Bea"⟩)]⟩,
         ⟨Target.all, "users", [("B", ⟨"B", "t2", JsNum.fin 10, JsNum.fin 20, "Bea"⟩)]⟩]) := by
  have h1 : onUserLocation [] "A"
      (JsVal.obj [("lat", JsVal.num (JsNum.fin 40)), ("lng", JsVal.num (JsNum.fin (-74)))]) "t1"
      = ([("A", ⟨"A", "t1", JsNum.fin 40, JsNum.fin (-74), "User"⟩)],
         [⟨Target.all, "users", [("A", ⟨"A", "t1", JsNum.fin 40, JsNum.fin (-74), "User"⟩)]⟩]) := by
    rw [onUserLocation_accept [] "A"
      (JsVal.obj [("lat", JsVal.num (JsNum.fin 40)), ("lng", JsVal.num (JsNum.fin (-74)))]) "t1"
      (JsNum.fin 40) (JsNum.fin (-74)) rfl rfl
      (by simp [JsNum.abs, JsNum.gt]; norm_num) (by simp [JsNum.abs, JsNum.gt]; norm_num)]
    rfl
  have h2 : onUserLocation [("A", ⟨"A", "t1", JsNum.fin 40, JsNum.fin (-74), "User"⟩)] "B"
      (JsVal.obj [("lat", JsVal.num (JsNum.fin 10)), ("lng", JsVal.num (JsNum.fin 20)),
        ("name", JsVal.str "Bea")]) "t2"
      = ([("A", ⟨"A", "t1", JsNum.fin 40, JsNum.fin (-74), "User"⟩),
          ("B", ⟨"B", "t2", JsNum.fin 10, JsNum.fin 20, "Bea"⟩)],
         [⟨Target.all, "users", [("A", ⟨"A", "t1", JsNum.fin 40, JsNum.fin (-74), "User"⟩),
          ("B", ⟨"B", "t2", JsNum.fin 10, JsNum.fin 20, "Bea"⟩)]⟩]) := by
    rw [onUserLocation_accept _ "B"
      (JsVal.obj [("lat", JsVal.num (JsNum.fin 10)), ("lng", JsVal.num (JsNum.fin 20)),
        ("name", JsVal.str "Bea")]) "t2"
      (JsNum.fin 10) (JsNum.fin 20) rfl rfl
      (by simp [JsNum.abs, JsNum.gt]; norm_num) (by simp [JsNum.abs, JsNum.gt]; norm_num)]
    rfl
  simp [run, step, sampleEvents, ServerState.init, onConnection, onTrack, h1, h2,
    onDisconnect, Dict.lookup, Dict.delete]

/-- A witness of C6: in the state reached by `sampleEvents` the one key left, `B`, is
connected and its entity has id `B`. -/
theorem C6_registry_keys_are_connected_witness :
    "B" ∈ (["B"] : List String) ∧
      (⟨"B", "t2", JsNum.fin 10, JsNum.fin 20, "Bea"⟩ : Entity).id = "B" :=
  C6_registry_keys_are_connected sampleEvents
    ⟨["B"], [("B", ⟨"B", "t2", JsNum.fin 10, JsNum.fin 20, "Bea"⟩)]⟩ _ run_sampleEvents
    "B" ⟨"B", "t2", JsNum.fin 10, JsNum.fin 20, "Bea"⟩ (List.mem_singleton.mpr rfl)

/-! ## The projection -/

/-- C7: for a view with non-zero scale, `latLngToPixel` and `pixelToLatLng` are
inverse to each other in exact arithmetic, in both directions. -/
theorem C7_projection_roundtrip (r : Renderer) (hscale : r.scale ≠ 0) :
    (∀ x y : ℚ,
      r.latLngToPixel (r.pixelToLatLng x y).1 (r.pixelToLatLng x y).2 = (x, y)) ∧
    (∀ lat lng : ℚ,
      r.pixelToLatLng (r.latLngToPixel lat lng).1 (r.latLngToPixel lat lng).2 = (lat, lng)) := by
  constructor
  · intro x y
    simp only [Renderer.latLngToPixel, Renderer.pixelToLatLng, Prod.mk.injEq]
    constructor <;> field_simp <;> ring
  · intro lat lng
    simp only [Renderer.latLngToPixel, Renderer.pixelToLatLng, Prod.mk.injEq]
    constructor <;> field_simp

/-- A witness of C7: the renderer as constructed (scale 100000) on an 800 by 600
host at pixel density 1, at the pixel `(10, 20)`. -/
theorem C7_projection_roundtrip_witness :
    (Renderer.create true 800 600 1).latLngToPixel
        ((Renderer.create true 800 600 1).pixelToLatLng 10 20).1
        ((Renderer.create true 800 600 1).pixelToLatLng 10 20).2 = (10, 20) :=
  (C7_projection_roundtrip (Renderer.create true 800 600 1)
    (by simp [Renderer.create, Renderer.resizeCanvas])).1 10 20

/-! ## The geolocation route -/

/-- The cache of the route at work: from an address other than the loopback ones, a
successful lookup that ended at `doneAt` answers a request made less than 600000 ms
later with the same body and without a call to the provider. -/
theorem geoIp_second_request_from_cache (cache : GeoCache) (clientIp : String)
    (now doneAt now2 doneAt2 : Int) (geoData : JsVal) (outcome2 : ProviderOutcome)
    (hmiss : Dict.lookup clientIp cache = none)
    (hip : ¬ (clientIp = "::1" ∨ clientIp = "127.0.0.1" ∨ clientIp = "localhost"))
    (hthrow : geoData.readThrows = false) (hok : geoDataOk geoData = true)
    (hsoon : now2 - doneAt < 600000) :
    (geoIp (geoIp cache clientIp now (ProviderOutcome.body (some geoData)) doneAt).cache
        clientIp now2 outcome2 doneAt2).outbound = 0 ∧
    (geoIp (geoIp cache clientIp now (ProviderOutcome.body (some geoData)) doneAt).cache
        clientIp now2 outcome2 doneAt2).response.body
      = (geoIp cache clientIp now (ProviderOutcome.body (some geoData)) doneAt).response.body := by
  simp [geoIp, geoIpLookup, geocodeIp, hmiss, hip, hthrow, hok, Dict.lookup_set_self, hsoon]

/-- C8: two requests from the loopback address `::1`, one second apart, with the
provider answering successfully both times. The first lookup answers 200 and leaves
the cache empty, and the second request calls the provider again. From the address
`203.0.113.7` the second request is answered from the cache without a call. -/
theorem C8_loopback_lookup_is_not_cached :
    (geoIp [] "::1" 0 (ProviderOutcome.body (some sampleGeoData)) 100).response.status = 200 ∧
    (geoIp [] "::1" 0 (ProviderOutcome.body (some sampleGeoData)) 100).cache = [] ∧
    (geoIp (geoIp [] "::1" 0 (ProviderOutcome.body (some sampleGeoData)) 100).cache "::1" 1000
        (ProviderOutcome.body (some sampleGeoData)) 1100).outbound = 1 ∧
    (geoIp (geoIp [] "203.0.113.7" 0 (ProviderOutcome.body (some sampleGeoData)) 100).cache
        "203.0.113.7" 1000 (ProviderOutcome.body (some sampleGeoData)) 1100).outbound = 0 := by
  refine ⟨?_, ?_, ?_, ?_⟩ <;>
    simp [geoIp, geoIpLookup, getPublicIpAndGeocode, geocodeIp, geoDataOk, sampleGeoData,
      JsVal.readThrows, JsVal.get, JsVal.lookupField, JsVal.isStr, JsVal.isNumber, Dict.lookup,
      Dict.set]

/-! ## The drawing pass -/

theorem vertices_append (xs ys : List Cmd) : vertices (xs ++ ys) = vertices xs ++ vertices ys := by
  induction xs with
  | nil => rfl
  | cons c cs ih => cases c <;> simp [vertices, ih]

theorem vertices_lineTo (f : ℚ × ℚ → ℚ × ℚ) (ps : List (ℚ × ℚ)) :
    vertices (ps.map (fun p => Cmd.lineTo (f p).1 (f p).2)) = ps.map f := by
  induction ps with
  | nil => rfl
  | cons p ps ih => simp [vertices, ih]

theorem drawObjects_append (r : Renderer) (objects : Dict MapObject) (cur : String)
    (xs ys : List String) :
    r.drawObjects objects cur (xs ++ ys)
      = r.drawObjects objects cur xs ++ r.drawObjects objects cur ys := by
  induction xs with
  | nil => rfl
  | cons k ks ih => simp [Renderer.drawObjects, ih]

/-- The calls of `drawTrajectory` on a trajectory of at least two points. -/
theorem drawTrajectory_cons_cons (r : Renderer) (obj : MapObject) (isCurrent : Bool)
    (p q : ℚ × ℚ) (rest : List (ℚ × ℚ)) (ht : obj.trajectory = p :: q :: rest) :
    r.drawTrajectory obj isCurrent =
      [Cmd.strokeStyle (if isCurrent then "#135bec" else "#999"),
       Cmd.globalAlpha (if isCurrent then 8 / 10 else 3 / 10),
       Cmd.lineWidth (if isCurrent then 3 else 1),
       Cmd.lineCap "round",
       Cmd.lineJoin "round",
       Cmd.beginPath,
       Cmd.moveTo (r.latLngToPixel p.1 p.2).1 (r.latLngToPixel p.1 p.2).2]
      ++ (q :: rest).map
          (fun p => Cmd.lineTo (r.latLngToPixel p.1 p.2).1 (r.latLngToPixel p.1 p.2).2)
      ++ [Cmd.stroke, Cmd.globalAlpha 1] := by
  simp [Renderer.drawTrajectory, ht]

/-- A run of `lineTo` calls extends the polyline that ends the path, point by
point. -/
theorem strokesFrom_lineTo (f : ℚ × ℚ → ℚ × ℚ) (ps : List (ℚ × ℚ)) :
    ∀ (pts : List (ℚ × ℚ)) (tail : List Cmd),
      strokesFrom [Subpath.polyline pts] (ps.map (fun p => Cmd.lineTo (f p).1 (f p).2) ++ tail)
        = strokesFrom [Subpath.polyline (pts ++ ps.map f)] tail := by
  induction ps with
  | nil => intro pts tail; simp
  | cons p ps ih =>
    intro pts tail
    have hstep : strokesFrom [Subpath.polyline pts]
        (Cmd.lineTo (f p).1 (f p).2 :: (ps.map (fun p => Cmd.lineTo (f p).1 (f p).2) ++ tail))
        = strokesFrom [Subpath.polyline (pts ++ [f p])]
          (ps.map (fun p => Cmd.lineTo (f p).1 (f p).2) ++ tail) := rfl
    rw [List.map_cons, List.cons_append, hstep, ih, List.map_cons, List.append_assoc]
    rfl

/-- The calls of a trajectory of at least two points stroke one path, the polyline
through the projected points. -/
theorem strokesFrom_trajectory (f : ℚ × ℚ → ℚ × ℚ) (path : List Subpath) (s1 : String)
    (a w : ℚ) (p : ℚ × ℚ) (ps : List (ℚ × ℚ)) :
    strokesFrom path
      ([Cmd.strokeStyle s1, Cmd.globalAlpha a, Cmd.lineWidth w, Cmd.lineCap "round",
        Cmd.lineJoin "round", Cmd.beginPath, Cmd.moveTo (f p).1 (f p).2]
        ++ ps.map (fun p => Cmd.lineTo (f p).1 (f p).2)
        ++ [Cmd.stroke, Cmd.globalAlpha 1])
      = [[Subpath.polyline ((p :: ps).map f)]] := by
  have hhead : strokesFrom path
      ([Cmd.strokeStyle s1, Cmd.globalAlpha a, Cmd.lineWidth w, Cmd.lineCap "round",
        Cmd.lineJoin "round", Cmd.beginPath, Cmd.moveTo (f p).1 (f p).2]
        ++ ps.map (fun p => Cmd.lineTo (f p).1 (f p).2)
        ++ [Cmd.stroke, Cmd.globalAlpha 1])
      = strokesFrom [Subpath.polyline [f p]]
          (ps.map (fun p => Cmd.lineTo (f p).1 (f p).2) ++ [Cmd.stroke, Cmd.globalAlpha 1]) := rfl
  rw [hhead, strokesFrom_lineTo]
  rfl

/-- C9: on an initialised renderer, `draw` sets the view centre to the followed
object's position when `objects[currentObjectId]` exists and keeps it otherwise; the
calls of the frame are the clearing followed, key by key in iteration order, by the
trajectory and the marker of each object, all computed with the centre of this
frame; and the trajectory of an object is stroked exactly when it has at least two
points: nothing at all is drawn for a shorter trajectory, and otherwise the calls
are the style settings, `beginPath`, a `moveTo` to the projection of the first point,
a `lineTo` to the projection of each further point in order, `stroke` and the reset
of the opacity, so that the one path stroked is the single connected polyline
through the projections of the trajectory points, one per point and in order. -/
theorem C9_draw_follows_and_traces (r : Renderer) (objects : Dict MapObject)
    (currentObjectId : String) (hmounted : r.mounted = true) :
    (∀ o, Dict.lookup currentObjectId objects = some o →
      (r.draw objects currentObjectId).1 = { r with centerLat := o.lat, centerLng := o.lng }) ∧
    (Dict.lookup currentObjectId objects = none → (r.draw objects currentObjectId).1 = r) ∧
    (∀ (pre post : List String) (objId : String) (obj : MapObject),
      Dict.keys objects = pre ++ objId :: post → Dict.lookup objId objects = some obj →
      (r.draw objects currentObjectId).2 =
        Cmd.clearRect 0 0 r.canvasWidth r.canvasHeight ::
          ((r.draw objects currentObjectId).1.drawObjects objects currentObjectId pre
            ++ ((r.draw objects currentObjectId).1.drawTrajectory obj
                  (decide (objId = currentObjectId))
                ++ (r.draw objects currentObjectId).1.drawMarker obj
                  (decide (objId = currentObjectId)))
            ++ (r.draw objects currentObjectId).1.drawObjects objects currentObjectId post)) ∧
    (∀ (view : Renderer) (obj : MapObject) (isCurrent : Bool),
      (Cmd.stroke ∈ view.drawTrajectory obj isCurrent ↔ 2 ≤ obj.trajectory.length) ∧
      (obj.trajectory.length < 2 → view.drawTrajectory obj isCurrent = []) ∧
      (2 ≤ obj.trajectory.length →
        vertices (view.drawTrajectory obj isCurrent)
          = obj.trajectory.map (fun p => view.latLngToPixel p.1 p.2)) ∧
      (∀ (path : List Subpath), 2 ≤ obj.trajectory.length →
        strokesFrom path (view.drawTrajectory obj isCurrent)
          = [[Subpath.polyline (obj.trajectory.map (fun p => view.latLngToPixel p.1 p.2))]]) ∧
      (∀ (path : List Subpath), obj.trajectory.length < 2 →
        strokesFrom path (view.drawTrajectory obj isCurrent) = []) ∧
      (∀ (first : ℚ × ℚ) (rest : List (ℚ × ℚ)), obj.trajectory = first :: rest → rest ≠ [] →
        view.drawTrajectory obj isCurrent =
          [Cmd.strokeStyle (if isCurrent then "#135bec" else "#999"),
           Cmd.globalAlpha (if isCurrent then 8 / 10 else 3 / 10),
           Cmd.lineWidth (if isCurrent then 3 else 1),
           Cmd.lineCap "round",
           Cmd.lineJoin "round",
           Cmd.beginPath,
           Cmd.moveTo (view.latLngToPixel first.1 first.2).1
             (view.latLngToPixel first.1 first.2).2]
          ++ rest.map (fun p =>
              Cmd.lineTo (view.latLngToPixel p.1 p.2).1 (view.latLngToPixel p.1 p.2).2)
          ++ [Cmd.stroke, Cmd.globalAlpha 1])) := by
  refine ⟨?_, ?_, ?_, ?_⟩
  · intro o ho
    simp [Renderer.draw, Renderer.follow, hmounted, ho]
  · intro ho
    simp [Renderer.draw, Renderer.follow, hmounted, ho]
  · intro pre post objId obj hkeys hobj
    simp only [Renderer.draw, hmounted, Bool.not_true, Bool.false_eq_true, if_false, hkeys,
      drawObjects_append, Renderer.drawObjects, Renderer.drawObject, hobj, List.append_assoc]
  · intro view obj isCurrent
    have hshort : obj.trajectory.length < 2 → view.drawTrajectory obj isCurrent = [] := by
      intro hlt
      simp [Renderer.drawTrajectory, hlt]
    refine ⟨?_, hshort, ?_, ?_, ?_, ?_⟩
    · constructor
      · intro hmem
        by_contra hlt
        rw [hshort (Nat.lt_of_not_le hlt)] at hmem
        simp at hmem
      · intro hlen
        match ht : obj.trajectory, hlen with
        | p :: q :: rest, _ =>
          rw [drawTrajectory_cons_cons view obj isCurrent p q rest ht]
          simp
    · intro hlen
      match ht : obj.trajectory, hlen with
      | p :: q :: rest, _ =>
        rw [drawTrajectory_cons_cons view obj isCurrent p q rest ht, vertices_append,
          vertices_append, vertices_lineTo (fun p => view.latLngToPixel p.1 p.2)]
        simp [vertices]
    · intro path hlen
      match ht : obj.trajectory, hlen with
      | p :: q :: rest, _ =>
        rw [drawTrajectory_cons_cons view obj isCurrent p q rest ht]
        exact strokesFrom_trajectory (fun p => view.latLngToPixel p.1 p.2) path _ _ _ p
          (q :: rest)
    · intro path hlt
      rw [hshort hlt]
      rfl
    · intro first rest ht hrest
      match rest, hrest, ht with
      | q :: rest', _, ht => exact drawTrajectory_cons_cons view obj isCurrent first q rest' ht

/-- A witness of C9: the renderer on an 800 by 600 host at pixel density 1, its
centre on `A` of `sampleObjects`, strokes the trajectory of `A` as one polyline
through the projections of its two points. -/
theorem C9_draw_follows_and_traces_witness :
    strokesFrom []
        ((Renderer.create true 800 600 1).drawTrajectory
          ⟨40, -74, [(40, -74), (40001 / 1000, -74001 / 1000)], "Stopped", 0, 0⟩ true)
      = [[Subpath.polyline
          ([(40, -74), (40001 / 1000, -74001 / 1000)].map
            (fun p => (Renderer.create true 800 600 1).latLngToPixel p.1 p.2))]] :=
  ((C9_draw_follows_and_traces (Renderer.create true 800 600 1) sampleObjects "A"
    (by simp [Renderer.create, Renderer.resizeCanvas])).2.2.2
    (Renderer.create true 800 600 1)
    ⟨40, -74, [(40, -74), (40001 / 1000, -74001 / 1000)], "Stopped", 0, 0⟩ true).2.2.2.1 []
    (by decide)

/-- `Math.round` of an integer is that integer. -/
theorem mathRound_intCast (n : ℤ) : mathRound (n : ℚ) = n := by
  unfold mathRound
  rw [Int.floor_eq_iff]
  constructor <;> linarith

/-- The fields of `hiDpiRenderer`. -/
theorem hiDpiRenderer_eq :
    hiDpiRenderer = ⟨true, 100000, 407128 / 10000, -740060 / 10000, 1600, 1200, 800, 600, 2⟩ := by
  have hw : mathRound (800 * 2) = 1600 := by
    have := mathRound_intCast 1600
    norm_num at this ⊢
    exact this
  have hh : mathRound (600 * 2) = 1200 := by
    have := mathRound_intCast 1200
    norm_num at this ⊢
    exact this
  simp [hiDpiRenderer, Renderer.create, Renderer.resizeCanvas, hw, hh]

/-- The marker of the followed object is drawn around half of `canvas.width` and
`canvas.height`. -/
theorem followed_marker_position (r : Renderer) (objects : Dict MapObject)
    (currentObjectId : String) (o : MapObject) (hmounted : r.mounted = true)
    (ho : Dict.lookup currentObjectId objects = some o) :
    (r.draw objects currentObjectId).1.latLngToPixel o.lat o.lng
      = ((r.canvasWidth : ℚ) / 2, (r.canvasHeight : ℚ) / 2) := by
  simp [Renderer.draw, Renderer.follow, hmounted, ho, Renderer.latLngToPixel]

/-- C10: on a host of 800 by 600 CSS pixels at pixel density 2, after `resizeCanvas`
the canvas is 1600 by 1200 with the scale transform 2, and `draw` with the followed
object `A` present puts the marker of `A` at `(800, 600)`, half of the backing
resolution, and not at the centre `(400, 300)` of the CSS-pixel box. -/
theorem C10_followed_marker_at_half_backing_size :
    hiDpiRenderer.styleWidth = 800 ∧ hiDpiRenderer.styleHeight = 600 ∧
    hiDpiRenderer.transform = 2 ∧
    hiDpiRenderer.canvasWidth = 1600 ∧ hiDpiRenderer.canvasHeight = 1200 ∧
    (hiDpiRenderer.draw sampleObjects "A").1.latLngToPixel 40 (-74) = (800, 600) ∧
    Cmd.arc 800 600 12 ∈ (hiDpiRenderer.draw sampleObjects "A").2 ∧
    Cmd.arc 400 300 12 ∉ (hiDpiRenderer.draw sampleObjects "A").2 := by
  rw [hiDpiRenderer_eq]
  refine ⟨rfl, rfl, rfl, rfl, rfl, ?_, ?_, ?_⟩
  · simp [Renderer.draw, Renderer.follow, sampleObjects, Dict.lookup, Renderer.latLngToPixel]
    norm_num
  · simp [Renderer.draw, Renderer.follow, sampleObjects, Dict.lookup, Dict.keys,
      Renderer.drawObjects, Renderer.drawObject, Renderer.drawTrajectory, Renderer.drawMarker,
      Renderer.drawDirectionArrow, Renderer.latLngToPixel]
    norm_num
  · simp [Renderer.draw, Renderer.follow, sampleObjects, Dict.lookup, Dict.keys,
      Renderer.drawObjects, Renderer.drawObject, Renderer.drawTrajectory, Renderer.drawMarker,
      Renderer.drawDirectionArrow, Renderer.latLngToPixel]
    norm_num

end TrackLive
